import Mathlib

/-!
Verification development for the FlakersStudio server core: a shallow
embedding of the governance engine, the chat endpoint's decision path,
the progress reporter, the cooperative cancellation checker, the
stale-job reaper, the discovery and ingestion orchestration, and the
content processor (deterministic chunk identifiers and token chunking).

Conventions of the embedding:
* Python dictionaries with `.get(key, default)` access become structures
  with `Option` fields read through `Option.getD`.
* Similarity scores and percentages (Python floats) are modelled as
  rationals; `round(x, 2)` is modelled by `round2` below.
* Database rows become plain records; a service method that reads and
  mutates rows becomes a function from the old records to the new ones.
* A Python `raise` that a caller observes becomes an explicit error
  value (`Option`/`Except`/a flag in the result).
-/

/-! ## Governance engine (`app/services/governance.py`) -/

/-- `ChatDecision` enum from `app/models/chat.py`. -/
inductive ChatDecision where
  | ANSWER
  | REFUSE
deriving DecidableEq, Repr

/-- `RefusalReason` enum from `app/models/chat.py`. -/
inductive RefusalReason where
  | OUT_OF_SCOPE
  | NO_CONTEXT
  | POLICY_VIOLATION
  | CROSS_TENANT
  | INSUFFICIENT_CONFIDENCE
deriving DecidableEq, Repr

/-- A retrieved candidate chunk as the governance engine sees it: a dict
with optional keys `intent`, `score`, `is_policy_content`,
`requires_attribution` (defaults "unknown", 0.0, False, True). -/
structure GovChunk where
  intent : Option String := none
  score : Option ℚ := none
  is_policy_content : Option Bool := none
  requires_attribution : Option Bool := none
deriving DecidableEq, Repr

/-- The assistant configuration fields `GovernanceEngine.__init__` keeps. -/
structure GovConfig where
  assistant_id : String
  allowed_intents : List String := []
deriving DecidableEq, Repr

/-- `GovernanceDecision` from `app/services/governance.py` (the
`allowed_context` and `rules_applied` defaults are the empty list). -/
structure GovernanceDecision where
  decision : ChatDecision
  reason : Option RefusalReason := none
  allowed_context : List GovChunk := []
  rules_applied : List String := []
deriving DecidableEq, Repr

/-- `GovernanceEngine._check_tenant_isolation`: the source returns `False`
unconditionally (chunks are assumed tenant-scoped by retrieval). -/
def check_tenant_isolation (_chunks : List GovChunk) (_tenant_id : String) : Bool :=
  false

/-- `GovernanceEngine._filter_by_intent`: with an empty allow-list the
chunks are returned unfiltered ("No intent restrictions"); otherwise a
chunk is kept exactly when its intent (default "unknown") is allowed. -/
def filter_by_intent (cfg : GovConfig) (chunks : List GovChunk) : List GovChunk :=
  if cfg.allowed_intents = [] then
    chunks
  else
    chunks.filter (fun c => (c.intent.getD "unknown") ∈ cfg.allowed_intents)

/-- `GovernanceEngine._filter_by_confidence` with its default threshold 0.7:
keep chunks whose score (default 0.0) is at least the threshold. -/
def filter_by_confidence (chunks : List GovChunk) (threshold : ℚ := 7/10) :
    List GovChunk :=
  chunks.filter (fun c => threshold ≤ c.score.getD 0)

/-- `GovernanceEngine.evaluate_query`: the six-rule chain, in source order. -/
def evaluate_query (cfg : GovConfig) (retrieved_chunks : List GovChunk)
    (tenant_id : String) : GovernanceDecision :=
  -- Rule 1: Require Context (MANDATORY)
  if retrieved_chunks = [] then
    { decision := .REFUSE
      reason := some .NO_CONTEXT
      rules_applied := ["require_context"] }
  else
    -- Rule 2: Tenant Isolation (MANDATORY)
    if check_tenant_isolation retrieved_chunks tenant_id then
      { decision := .REFUSE
        reason := some .CROSS_TENANT
        rules_applied := ["require_context", "tenant_isolation"] }
    else
      -- Rule 3: Intent Filtering
      let allowed_chunks := filter_by_intent cfg retrieved_chunks
      if allowed_chunks = [] then
        { decision := .REFUSE
          reason := some .OUT_OF_SCOPE
          rules_applied := ["require_context", "tenant_isolation", "intent_filtering"] }
      else
        -- Rule 4: Confidence Threshold
        let high_confidence_chunks := filter_by_confidence allowed_chunks
        if high_confidence_chunks = [] then
          { decision := .REFUSE
            reason := some .INSUFFICIENT_CONFIDENCE
            rules_applied := ["require_context", "tenant_isolation",
                              "intent_filtering", "confidence_threshold"] }
        else
          -- Rule 5: Policy Content Handling / Rule 6: Attribution Requirements
          let base := ["require_context", "tenant_isolation",
                       "intent_filtering", "confidence_threshold"]
          let withPolicy :=
            if high_confidence_chunks.any (fun c => c.is_policy_content.getD false) then
              base ++ ["policy_quote_only"]
            else base
          let withAttribution :=
            if high_confidence_chunks.any (fun c => c.requires_attribution.getD true) then
              withPolicy ++ ["attribution_required"]
            else withPolicy
          { decision := .ANSWER
            allowed_context := high_confidence_chunks
            rules_applied := withAttribution }

/-! Specification-side model of the rule chain, written from the spec's
words: "Rule chain, evaluated in fixed order, each a hard gate (first
failing rule determines the REFUSE reason; passing a rule appends its
name to `rulesApplied`)". A rule either refuses or passes a filtered
candidate set onward; a passing rule records its name when its
`records` predicate holds (always, for the four gate rules; on the
tagging rules only when the tag applies). -/

/-- One governance rule of the specification's chain. -/
structure GovRule where
  name : String
  run : List GovChunk → Except RefusalReason (List GovChunk)
  records : List GovChunk → Bool := fun _ => true

/-- Evaluate a chain of rules in order, accumulating the names of the
rules applied; the first failing rule determines the refusal reason. -/
def chainEval (acc : List String) (chunks : List GovChunk) :
    List GovRule → GovernanceDecision
  | [] =>
      { decision := .ANSWER, allowed_context := chunks, rules_applied := acc }
  | r :: rs =>
      match r.run chunks with
      | .error reason =>
          { decision := .REFUSE, reason := some reason,
            rules_applied := acc ++ [r.name] }
      | .ok chunks' =>
          chainEval (acc ++ if r.records chunks' then [r.name] else []) chunks' rs

/-- The spec's fixed rule order for a given assistant configuration and
tenant: require_context, tenant_isolation, intent_filtering,
confidence_threshold, policy-content tagging, attribution tagging. -/
def govChain (cfg : GovConfig) (tenant_id : String) : List GovRule :=
  [ { name := "require_context"
      run := fun chunks => if chunks = [] then .error .NO_CONTEXT else .ok chunks }
  , { name := "tenant_isolation"
      run := fun chunks =>
        if check_tenant_isolation chunks tenant_id then .error .CROSS_TENANT
        else .ok chunks }
  , { name := "intent_filtering"
      run := fun chunks =>
        let filtered := filter_by_intent cfg chunks
        if filtered = [] then .error .OUT_OF_SCOPE else .ok filtered }
  , { name := "confidence_threshold"
      run := fun chunks =>
        let filtered := filter_by_confidence chunks
        if filtered = [] then .error .INSUFFICIENT_CONFIDENCE else .ok filtered }
  , { name := "policy_quote_only"
      run := .ok
      records := fun chunks => chunks.any (fun c => c.is_policy_content.getD false) }
  , { name := "attribution_required"
      run := .ok
      records := fun chunks => chunks.any (fun c => c.requires_attribution.getD true) }
  ]

/-! ## Chat endpoint decision path (`app/api/routes/chat.py`, `chat_query`) -/

/-- The governance-relevant fields of `ChatQueryResponse`. -/
structure ChatQueryResponse where
  decision : String
  answer : Option String := none
  reason : Option String := none
  rules_applied : List String := []
deriving DecidableEq, Repr

/-- The decision logic of `chat_query` after retrieval, as a function of
the retrieved chunk set.  The Azure AI completion and the small-talk
classifier are external collaborators, passed in as the already-computed
answer text and the `_is_small_talk` verdict.  The source returns
`decision="ANSWER"` on every path: with an empty chunk set it still asks
Azure AI for a response (small talk or a general fallback) and answers;
with a non-empty chunk set it builds the RAG prompt and answers.  No
path constructs a REFUSE response and `GovernanceEngine` is never
consulted. -/
def chat_query (retrieved_chunks : List GovChunk) (small_talk : Bool)
    (ai_content : String) : ChatQueryResponse :=
  if retrieved_chunks = [] then
    -- both the small-talk branch and the general-fallback branch return
    -- an AI-generated answer with decision "ANSWER"
    if small_talk then
      { decision := "ANSWER", answer := some ai_content,
        rules_applied := ["No context found - general response"] }
    else
      { decision := "ANSWER", answer := some ai_content,
        rules_applied := ["No context found - general response"] }
  else
    { decision := "ANSWER", answer := some ai_content, rules_applied := [] }

/-! ## Progress reporter (`app/services/progress_reporter.py`) -/

/-- Chunk counts by status, as produced by the grouped count query. -/
structure ChunkCounts where
  queued : ℕ := 0
  uploading : ℕ := 0
  uploaded : ℕ := 0
  failed : ℕ := 0
  retrying : ℕ := 0
deriving DecidableEq, Repr

/-- The chunk-progress section of the progress view.  Optional fields
model keys that are absent from the Python dict in the
total-unknown shape. -/
structure ChunkProgressView where
  status : String
  message : Option String := none
  total : Option ℕ := none
  queued : ℕ
  uploading : ℕ
  uploaded : ℕ
  failed : ℕ
  retrying : ℕ
  completed_count : Option ℕ := none
  percentage_complete : Option ℚ := none
  percentage_uploaded : Option ℚ := none
deriving DecidableEq, Repr

/-- Python's `round(x, 2)` on the percentage values, modelled over ℚ:
round to the nearest multiple of 1/100. -/
def round2 (q : ℚ) : ℚ := (round (q * 100) : ℤ) / 100

/-- `ProgressReporter._get_chunk_progress`: with an unknown total the
view carries raw counts and the explicit count-pending message and no
percentage keys; with a known total it adds `completed_count` and the
two percentages (guarded to 0 when the total is 0). -/
def get_chunk_progress (total_chunks_created : Option ℕ) (counts : ChunkCounts) :
    ChunkProgressView :=
  match total_chunks_created with
  | none =>
      { status := "in_progress"
        message := some "Processing URLs - final chunk count pending"
        queued := counts.queued
        uploading := counts.uploading
        uploaded := counts.uploaded
        failed := counts.failed
        retrying := counts.retrying }
  | some total_chunks =>
      let completed_count := counts.uploaded + counts.failed
      { status := "known"
        total := some total_chunks
        queued := counts.queued
        uploading := counts.uploading
        uploaded := counts.uploaded
        failed := counts.failed
        retrying := counts.retrying
        completed_count := some completed_count
        percentage_complete :=
          some (if 0 < total_chunks then
                  round2 ((completed_count : ℚ) / total_chunks * 100)
                else 0)
        percentage_uploaded :=
          some (if 0 < total_chunks then
                  round2 ((counts.uploaded : ℚ) / total_chunks * 100)
                else 0) }

/-! ## Cooperative cancellation checker (`app/services/cancellation.py`) -/

/-- The mutable state of a `CancellationChecker`: the two cached status
strings (initially `None`) and the check counter (initially 0).  The
cache refresh interval is the constant 10. -/
structure CheckerState where
  cached_job_status : Option String := none
  cached_project_status : Option String := none
  check_count : ℕ := 0
deriving DecidableEq, Repr

/-- What `_refresh_cache` reads from the database: the watched job's row
(status string and `cancellation_requested`) and the project's status
value, either possibly absent. -/
structure CancellationDbView where
  job_row : Option (String × Bool) := none
  project_row : Option String := none
deriving DecidableEq, Repr

/-- `CancellationChecker._refresh_cache`: overwrite the cached job status
(mapping a requested-but-not-yet-cancelled job to "cancelled") and the
cached project status, leaving either cache untouched when its row is
absent. -/
def refresh_cache (db : CancellationDbView) (s : CheckerState) : CheckerState :=
  let s1 :=
    match db.job_row with
    | none => s
    | some (status, cancellation_requested) =>
        if cancellation_requested ∧ status ≠ "cancelled" then
          { s with cached_job_status := some "cancelled" }
        else
          { s with cached_job_status := some status }
  match db.project_row with
  | none => s1
  | some pstatus => { s1 with cached_project_status := some pstatus }

/-- Why `check_cancellation` raised `CancellationException`. -/
inductive CancellationCause where
  | projectDeleted
  | jobCancelled
  | jobFailed
deriving DecidableEq, Repr

/-- `CancellationChecker.check_cancellation`: bump the counter, refresh
the cache on every 10th check, then test the cached project status
(anything other than `"active"` — including the initial `None` — raises),
then cached job status "cancelled", then "failed".  The result pairs the
new checker state with `some cause` when the call raises and `none` when
it returns normally. -/
def check_cancellation (db : CancellationDbView) (s : CheckerState) :
    CheckerState × Option CancellationCause :=
  let count' := s.check_count + 1
  let s1 :=
    if count' % 10 = 0 then
      { refresh_cache db s with check_count := count' }
    else
      { s with check_count := count' }
  if s1.cached_project_status ≠ some "active" then
    (s1, some .projectDeleted)
  else if s1.cached_job_status = some "cancelled" then
    (s1, some .jobCancelled)
  else if s1.cached_job_status = some "failed" then
    (s1, some .jobFailed)
  else
    (s1, none)

/-! ## Stale-job reaper (`app/services/status_updater.py`, `cleanup_stale_jobs`) -/

/-- One entry of a job's `error_details` list, with the fields
`cleanup_stale_jobs` writes (an absent `cleanup_reason` models entries
written by other paths). -/
structure JobErrorEntry where
  error : String
  timestamp : ℤ
  cleanup_reason : Option String := none
deriving DecidableEq, Repr

/-- The fields of an `ingestion_jobs` row that the reaper reads/writes.
Timestamps are modelled as integer seconds. -/
structure ReaperJobRow where
  id : String
  assistant_id : String
  status : String
  started_at : ℤ
  error_details : List JobErrorEntry := []
  completed_at : Option ℤ := none
deriving DecidableEq, Repr

/-- The status list of the reaper's SQL filter, verbatim from the source. -/
def staleStatusList : List String :=
  ["running", "scraping", "processing", "embedding", "indexing", "storing"]

/-- The reaper's selection predicate: status in `staleStatusList` and
`started_at` strictly before the cutoff. -/
def isStaleJob (cutoff : ℤ) (j : ReaperJobRow) : Bool :=
  j.status ∈ staleStatusList ∧ j.started_at < cutoff

/-- The per-job mutation the reaper applies to each selected job: mark
failed, append the timeout error entry with `cleanup_reason
"stale_job_cleanup"`, stamp `completed_at`. -/
def markStale (now : ℤ) (j : ReaperJobRow) : ReaperJobRow :=
  { j with
    status := "failed"
    error_details := j.error_details ++
      [{ error := "Job timed out - exceeded maximum runtime"
         timestamp := now
         cleanup_reason := some "stale_job_cleanup" }]
    completed_at := some now }

/-- `StatusUpdateService.cleanup_stale_jobs` over a table of job rows:
select the stale jobs (status in the explicit list, started before
`now - max_age_hours`), mark each failed, and return the updated table
with the cleaned count.  Non-selected rows are untouched. -/
def cleanup_stale_jobs (now : ℤ) (max_age_hours : ℤ := 24)
    (jobs : List ReaperJobRow) : List ReaperJobRow × ℕ :=
  let cutoff := now - max_age_hours * 3600
  ( jobs.map (fun j => if isStaleJob cutoff j then markStale now j else j)
  , (jobs.filter (isStaleJob cutoff)).length )

/-! ## Content discovery (`app/services/content_discovery.py`) -/

/-- A scraped page as the discovery stage consumes it. -/
structure DiscoveryPage where
  url : String
  title : String
  content : String
deriving DecidableEq, Repr

/-- The job fields `_execute_discovery` touches. -/
structure DiscoveryJob where
  id : String
  status : String
  current_stage : String
  total_urls_discovered : ℕ := 0
  urls_scraped : ℕ := 0
  errors_count : ℕ := 0
  error_messages : List String := []
deriving DecidableEq, Repr

/-- A stored `ingestion_urls` row created during discovery. -/
structure DiscoveryUrlRow where
  job_id : String
  url : String
  status : String
  title : String
  language : String
  word_count : ℕ
deriving DecidableEq, Repr

/-- `ContentProcessor._count_words`: split on whitespace and count the
non-empty pieces. -/
def count_words (text : String) : ℕ :=
  ((text.split Char.isWhitespace).filter (fun w => w.trim ≠ "")).length

/-- `ContentProcessor` has no `_detect_language` method: the class in
`app/services/content_processor.py` defines `_clean_text`, `_chunk_text`,
`_calculate_content_quality`, `_count_words`,
`_generate_deterministic_chunk_id`, `process_scraped_pages` and
`get_processing_stats` only, and no other definition of
`_detect_language` exists in the repository.  The attribute lookup
`self.processor._detect_language` in `content_discovery.py` therefore
raises `AttributeError` at run time; this constant records that absence. -/
def contentProcessorDetectLanguage : Option (String → String) := none

/-- `ContentDiscoveryService._execute_discovery` for a given scrape
result.  An empty page set raises ("No pages were successfully scraped")
and the handler marks the job failed.  A non-empty page set first
commits `total_urls_discovered` and `current_stage := "storing"`; the
page-storage loop then looks up `_detect_language` on the processor —
which does not exist — so the `AttributeError` propagates to the handler
and the job is marked failed with the commit's stage intact.  The
`some`-branch is the code the loop would run if the method existed. -/
def execute_discovery (job : DiscoveryJob) (scraped_pages : List DiscoveryPage) :
    DiscoveryJob × List DiscoveryUrlRow :=
  if scraped_pages = [] then
    ({ job with
        status := "failed"
        errors_count := 1
        error_messages := ["No pages were successfully scraped"] }, [])
  else
    -- first commit: fix the total and move to the storing stage
    let job1 := { job with
      total_urls_discovered := scraped_pages.length
      current_stage := "storing" }
    match contentProcessorDetectLanguage with
    | none =>
        -- AttributeError on the first loop iteration; the except-branch
        -- marks the job failed (no URL rows are committed)
        ({ job1 with
            status := "failed"
            errors_count := 1
            error_messages :=
              ["AttributeError: ContentProcessor object has no attribute detect_language"] },
         [])
    | some detect =>
        let rows := scraped_pages.map (fun page =>
          { job_id := job.id
            url := page.url
            status := "scraped"
            title := page.title
            language := detect page.content
            word_count := count_words page.content : DiscoveryUrlRow })
        ({ job1 with
            status := "running"
            current_stage := "discovery_complete"
            urls_scraped := scraped_pages.length },
         rows)

/-! ## Ingestion orchestration (`app/services/ingestion.py`, `_process_ingestion`) -/

/-- The `ingestion_jobs` fields `_process_ingestion` reads and writes. -/
structure IngestJob where
  id : String
  status : String
  current_stage : String
  total_chunks_created : Option ℕ := none
  chunks_uploaded : ℕ := 0
  urls_processed : ℕ := 0
  urls_completed : ℕ := 0
  errors_count : ℕ := 0
  completed_at : Option ℤ := none
deriving DecidableEq, Repr

/-- An `ingestion_urls` row as the ingestion stage consumes it. -/
structure IngestUrlRow where
  url : String
  status : String
  raw_content : String
  chunk_count : ℕ := 0
  processed_at : Option ℤ := none
deriving DecidableEq, Repr

/-- The assistant fields the completion step updates. -/
structure AssistantRow where
  id : String
  status : String
  status_message : String := ""
  total_chunks_indexed : String := ""
  total_pages_crawled : String := ""
deriving DecidableEq, Repr

/-- The whole state `_process_ingestion` may mutate: the job row, the
job's URL rows, the stored content-chunk identifiers, and the owning
assistant row. -/
structure IngestionState where
  job : IngestJob
  urls : List IngestUrlRow
  stored_chunk_urls : List String := []
  assistant : AssistantRow
deriving DecidableEq, Repr

/-- The stages whose presence makes `_process_ingestion` skip the run
(the idempotency guard's stage list, verbatim from the source). -/
def ingestionGuardStages : List String :=
  ["processing", "embedding", "ingestion", "storing"]

/-- `IngestionService._process_ingestion` as a transformer of
`IngestionState`.  The content processor's chunking of one URL and the
vector-store upload are external collaborators, passed as `chunker`
(URL text to chunk texts) and `store` (chunk texts to point ids); `now`
stands for `datetime.utcnow()`.  The two idempotency guards return the
state unchanged; otherwise the run performs the source's sequence of
mutations (status running / stage processing, per-URL processing, chunk
totals, embedding/ingestion/storing stages, completion, assistant
update), or marks the job failed when no scraped URLs exist. -/
def process_ingestion (chunker : String → List String)
    (store : List String → List String) (now : ℤ)
    (s : IngestionState) : IngestionState :=
  -- Guard: skip if job is already completed
  if s.job.status = "completed" then
    s
  -- Guard: skip if ingestion is already in progress
  else if s.job.current_stage ∈ ingestionGuardStages then
    s
  else
    let job1 := { s.job with status := "running", current_stage := "processing" }
    let scraped := s.urls.filter (fun u => u.status ∈ ["scraped", "processed"])
    if scraped = [] then
      -- raise "No scraped content found in database"; handler marks failed
      { s with job := { job1 with status := "failed", errors_count := 1 } }
    else
      let all_chunks := scraped.flatMap (fun u => chunker u.raw_content)
      let urls1 := s.urls.map (fun u =>
        if u.status ∈ ["scraped", "processed"] then
          { u with
            status := "processed"
            chunk_count := (chunker u.raw_content).length
            processed_at := some now }
        else u)
      let job2 := { job1 with
        total_chunks_created := some all_chunks.length
        urls_processed := scraped.length }
      let job3 := { job2 with current_stage := "embedding" }
      let job4 := { job3 with current_stage := "ingestion" }
      let point_ids := store all_chunks
      let job5 := { job4 with chunks_uploaded := point_ids.length }
      let job6 := { job5 with current_stage := "storing" }
      let job7 := { job6 with
        status := "completed"
        current_stage := "completed"
        urls_completed := scraped.length
        completed_at := some now }
      { job := job7
        urls := urls1
        stored_chunk_urls := s.stored_chunk_urls ++ scraped.map (fun u => u.url)
        assistant := { s.assistant with
          status := "ready"
          status_message := "Assistant is ready for chat"
          total_chunks_indexed := toString all_chunks.length
          total_pages_crawled := toString scraped.length } }

/-! ## Content processor (`app/services/content_processor.py`) -/

/-- Shipped setting `MAX_CONTENT_LENGTH` (`app/core/config.py`), the
processor's `max_chunk_size`. -/
def MAX_CONTENT_LENGTH : ℕ := 10000

/-- Shipped setting `CHUNK_OVERLAP` (`app/core/config.py`), the
processor's `chunk_overlap`. -/
def CHUNK_OVERLAP : ℕ := 200

/-- UTF-8 encoding of one code point, as byte values. -/
def utf8EncodeCodepoint (n : ℕ) : List ℕ :=
  if n < 0x80 then
    [n]
  else if n < 0x800 then
    [0xC0 + n / 64, 0x80 + n % 64]
  else if n < 0x10000 then
    [0xE0 + n / 4096, 0x80 + n / 64 % 64, 0x80 + n % 64]
  else
    [0xF0 + n / 262144, 0x80 + n / 4096 % 64, 0x80 + n / 64 % 64, 0x80 + n % 64]

/-- Python's `str.encode("utf-8")` as a byte list. -/
def utf8Encode (s : String) : List ℕ :=
  s.data.flatMap (fun c => utf8EncodeCodepoint c.toNat)

/-- 32-bit truncation. -/
def w32 (n : ℕ) : ℕ := n % 2 ^ 32

/-- 32-bit right rotation. -/
def rotr32 (n x : ℕ) : ℕ := w32 ((x >>> n) ||| (x <<< (32 - n)))

/-- SHA-256 round constants. -/
def sha256k : List ℕ :=
  [1116352408, 1899447441, 3049323471, 3921009573, 961987163,
   1508970993, 2453635748, 2870763221, 3624381080, 310598401,
   607225278, 1426881987, 1925078388, 2162078206, 2614888103,
   3248222580, 3835390401, 4022224774, 264347078, 604807628,
   770255983, 1249150122, 1555081692, 1996064986, 2554220882,
   2821834349, 2952996808, 3210313671, 3336571891, 3584528711,
   113926993, 338241895, 666307205, 773529912, 1294757372,
   1396182291, 1695183700, 1986661051, 2177026350, 2456956037,
   2730485921, 2820302411, 3259730800, 3345764771, 3516065817,
   3600352804, 4094571909, 275423344, 430227734, 506948616,
   659060556, 883997877, 958139571, 1322822218, 1537002063,
   1747873779, 1955562222, 2024104815, 2227730452, 2361852424,
   2428436474, 2756734187, 3204031479, 3329325298]

/-- SHA-256 initial hash values. -/
def sha256h0 : List ℕ :=
  [1779033703, 3144134277, 1013904242, 2773480762,
   1359893119, 2600822924, 528734635, 1541459225]

/-- Big-endian byte expansion of `n` into `k` bytes. -/
def toBytesBE (k n : ℕ) : List ℕ :=
  (List.range k).map (fun i => (n >>> (8 * (k - 1 - i))) % 256)

/-- SHA-256 message padding: append `0x80`, zero bytes to reach 56 mod
64, then the 8-byte big-endian bit length. -/
def sha256pad (msg : List ℕ) : List ℕ :=
  let padZeros := (119 - msg.length % 64) % 64
  msg ++ [0x80] ++ List.replicate padZeros 0 ++ toBytesBE 8 (8 * msg.length)

/-- The sixteen 32-bit big-endian words of one 64-byte block. -/
def sha256words (block : List ℕ) : List ℕ :=
  (List.range 16).map (fun i =>
    (block.getD (4 * i) 0) <<< 24 + (block.getD (4 * i + 1) 0) <<< 16 +
    (block.getD (4 * i + 2) 0) <<< 8 + block.getD (4 * i + 3) 0)

/-- Message-schedule extension of the 16 block words to 64 words. -/
def sha256schedule (w16 : List ℕ) : List ℕ :=
  (List.range 48).foldl (fun w _ =>
    let i := w.length
    let s0 := rotr32 7 (w.getD (i - 15) 0) ^^^ rotr32 18 (w.getD (i - 15) 0) ^^^
              (w.getD (i - 15) 0 >>> 3)
    let s1 := rotr32 17 (w.getD (i - 2) 0) ^^^ rotr32 19 (w.getD (i - 2) 0) ^^^
              (w.getD (i - 2) 0 >>> 10)
    w ++ [w32 (w.getD (i - 16) 0 + s0 + w.getD (i - 7) 0 + s1)]) w16

/-- One SHA-256 compression step over a 64-byte block. -/
def sha256compress (h : List ℕ) (block : List ℕ) : List ℕ :=
  let w := sha256schedule (sha256words block)
  let final := (List.zip w sha256k).foldl (fun st wk =>
    match st with
    | [a, b, c, d, e, f, g, hh] =>
        let S1 := rotr32 6 e ^^^ rotr32 11 e ^^^ rotr32 25 e
        let ch := (e &&& f) ^^^ ((e ^^^ (2 ^ 32 - 1)) &&& g)
        let t1 := w32 (hh + S1 + ch + wk.2 + wk.1)
        let S0 := rotr32 2 a ^^^ rotr32 13 a ^^^ rotr32 22 a
        let mj := (a &&& b) ^^^ (a &&& c) ^^^ (b &&& c)
        let t2 := w32 (S0 + mj)
        [w32 (t1 + t2), a, b, c, w32 (d + t1), e, f, g]
    | st => st) h
  (List.zip h final).map (fun p => w32 (p.1 + p.2))

/-- SHA-256 digest of a byte list, as 32 bytes. -/
def sha256 (msg : List ℕ) : List ℕ :=
  let padded := sha256pad msg
  let blocks := (List.range (padded.length / 64)).map
    (fun i => (padded.drop (64 * i)).take 64)
  (blocks.foldl sha256compress sha256h0).flatMap (toBytesBE 4)

/-- Lower-case hex character for a value below 16. -/
def hexDigit (n : ℕ) : Char :=
  if n < 10 then Char.ofNat (48 + n) else Char.ofNat (87 + n)

/-- Two lower-case hex characters of one byte. -/
def byteToHex (b : ℕ) : List Char :=
  [hexDigit (b / 16 % 16), hexDigit (b % 16)]

/-- Python's `hashlib.sha256(bytes).hexdigest()`. -/
def sha256hexdigest (msg : List ℕ) : String :=
  String.mk ((sha256 msg).flatMap byteToHex)

/-- `ContentProcessor._generate_deterministic_chunk_id`: hash the
composite string `f"{url}:{chunk_index}:{content_hash}"`, take the first
16 characters of the hex digest, and prefix `"chunk_"`. -/
def generate_deterministic_chunk_id (url : String) (chunk_index : ℕ)
    (content_hash : String) : String :=
  let composite := url ++ ":" ++ toString chunk_index ++ ":" ++ content_hash
  let chunk_hash := sha256hexdigest (utf8Encode composite)
  "chunk_" ++ String.mk (chunk_hash.data.take 16)

/-- The claim's formula for the chunk identifier, computed independently
of `generate_deterministic_chunk_id`: the string "chunk_" followed by
the hex rendering of the first 8 bytes (16 hex digits) of the SHA-256
digest of `url ++ ":" ++ index ++ ":" ++ content_hash`. -/
def chunkIdSpec (url : String) (chunk_index : ℕ) (content_hash : String) : String :=
  "chunk_" ++ String.mk
    (((sha256 (utf8Encode (url ++ ":" ++ toString chunk_index ++ ":" ++ content_hash))).take 8).flatMap
      byteToHex)

/-- The loop of `ContentProcessor._chunk_text`, with explicit fuel
standing for the number of remaining iterations the while-loop is
allowed: `none` models non-termination within the given fuel.  Each
iteration slices `tokens[start : start + max_chunk_size]`, decodes it,
appends the stripped text when non-empty, and advances `start` to
`start + max_chunk_size - chunk_overlap`. -/
def chunk_loop (decode : List ℕ → String) (max_chunk_size chunk_overlap : ℕ)
    (tokens : List ℕ) : ℕ → ℕ → List String → Option (List String)
  | 0, start, acc => if start < tokens.length then none else some acc.reverse
  | fuel + 1, start, acc =>
      if start < tokens.length then
        let chunk_tokens := (tokens.drop start).take max_chunk_size
        let stripped := (decode chunk_tokens).trim
        let acc' := if stripped ≠ "" then stripped :: acc else acc
        chunk_loop decode max_chunk_size chunk_overlap tokens fuel
          (start + max_chunk_size - chunk_overlap) acc'
      else some acc.reverse

/-- `ContentProcessor._chunk_text`: tokenize (the tiktoken encoder and
decoder are external collaborators, passed as `encode`/`decode`), return
the text whole when it fits in one chunk, otherwise run the windowed
loop.  Fuel `tokens.length + 1` bounds the iterations; the termination
theorem shows it is never exhausted when `chunk_overlap <
max_chunk_size`. -/
def chunk_text (encode : String → List ℕ) (decode : List ℕ → String)
    (max_chunk_size chunk_overlap : ℕ) (text : String) : Option (List String) :=
  let tokens := encode text
  if tokens.length ≤ max_chunk_size then some [text]
  else chunk_loop decode max_chunk_size chunk_overlap tokens
    (tokens.length + 1) 0 []

/-! ## Claims -/

/-- C1: the claim says every AI answer is gated by the governance rule
chain and an empty retrieved-chunk set yields REFUSE(NoContext).  The
code violates this: `chat_query` never invokes `GovernanceEngine`, and
on an empty chunk set it still returns decision "ANSWER" carrying an
AI-generated answer, while the (bypassed) governance engine would
refuse with NO_CONTEXT on the same input. -/
theorem C1_chat_answers_without_governance :
    ∀ (small_talk : Bool) (ai_content : String) (cfg : GovConfig) (tenant : String),
      (chat_query [] small_talk ai_content).decision = "ANSWER"
      ∧ (chat_query [] small_talk ai_content).answer = some ai_content
      ∧ (chat_query [] small_talk ai_content).decision ≠ "REFUSE"
      ∧ (evaluate_query cfg [] tenant).decision = ChatDecision.REFUSE
      ∧ (evaluate_query cfg [] tenant).reason = some RefusalReason.NO_CONTEXT := by
  intro small_talk ai_content cfg tenant
  cases small_talk <;>
    exact ⟨rfl, rfl, by simp [chat_query], rfl, rfl⟩

/-- C2: the claim says a discovery job with a non-empty scraped page set
transitions to `discovery_complete` with `total_urls_discovered` fixed
at that transition.  The code violates this: for the one-page scrape
below, `_execute_discovery` fixes the total and commits
`current_stage = "storing"`, then the storage loop's call to the
nonexistent `ContentProcessor._detect_language` raises, and the handler
marks the job failed — the stage never becomes `discovery_complete`. -/
theorem C2_discovery_never_reaches_complete :
    (execute_discovery
        { id := "job1", status := "running", current_stage := "discovery" }
        [{ url := "https://example.com/", title := "Home",
           content := "welcome to the example home page" }]).1.status = "failed"
    ∧ (execute_discovery
        { id := "job1", status := "running", current_stage := "discovery" }
        [{ url := "https://example.com/", title := "Home",
           content := "welcome to the example home page" }]).1.current_stage = "storing"
    ∧ (execute_discovery
        { id := "job1", status := "running", current_stage := "discovery" }
        [{ url := "https://example.com/", title := "Home",
           content := "welcome to the example home page" }]).1.current_stage
        ≠ "discovery_complete"
    ∧ (execute_discovery
        { id := "job1", status := "running", current_stage := "discovery" }
        [{ url := "https://example.com/", title := "Home",
           content := "welcome to the example home page" }]).1.total_urls_discovered = 1 := by
  refine ⟨rfl, rfl, by decide, rfl⟩

/-- C4: when `total_chunks_created` is unknown the chunk-progress view
is exactly the raw counts plus the explicit count-pending message, with
every percentage-bearing field absent; once the total is a known
positive value, the view's `percentage_complete` is
(uploaded + failed) / total · 100 rounded to two decimals and
`percentage_uploaded` is uploaded / total · 100 rounded to two
decimals. -/
theorem C4_chunk_progress_truthful :
    ∀ (counts : ChunkCounts),
      get_chunk_progress none counts =
        { status := "in_progress"
          message := some "Processing URLs - final chunk count pending"
          total := none
          queued := counts.queued
          uploading := counts.uploading
          uploaded := counts.uploaded
          failed := counts.failed
          retrying := counts.retrying
          completed_count := none
          percentage_complete := none
          percentage_uploaded := none }
      ∧ ∀ total_chunks : ℕ, 0 < total_chunks →
          (get_chunk_progress (some total_chunks) counts).percentage_complete
            = some (round2 (((counts.uploaded + counts.failed : ℕ) : ℚ) / total_chunks * 100))
          ∧ (get_chunk_progress (some total_chunks) counts).percentage_uploaded
            = some (round2 ((counts.uploaded : ℚ) / total_chunks * 100)) := by
  intro counts
  refine ⟨rfl, ?_⟩
  intro total_chunks ht
  simp [get_chunk_progress, if_pos ht]

/-- C4 witness: the theorem instantiated at uploaded = 3, failed = 1,
total = 4. -/
theorem C4_chunk_progress_truthful_witness :
    (0 : ℕ) < 4
    ∧ ((get_chunk_progress (some 4)
          { queued := 0, uploading := 0, uploaded := 3, failed := 1, retrying := 0 }).percentage_complete
        = some (round2 ((((3 : ℕ) + (1 : ℕ) : ℕ) : ℚ) / (4 : ℕ) * 100))
        ∧ (get_chunk_progress (some 4)
          { queued := 0, uploading := 0, uploaded := 3, failed := 1, retrying := 0 }).percentage_uploaded
        = some (round2 (((3 : ℕ) : ℚ) / (4 : ℕ) * 100))) :=
  ⟨by decide,
   (C4_chunk_progress_truthful
      { queued := 0, uploading := 0, uploaded := 3, failed := 1, retrying := 0 }).2
     4 (by decide)⟩

/-- C5: the claim says `check_cancellation` returns normally whenever no
cancellation, failure, or deletion holds — in particular on a freshly
constructed checker for a running job in an active project.  The code
violates this: the fresh checker's `None` project-status cache differs
from "active" and the cache is only refreshed on every 10th check, so
the very first call raises the project-deletion cause; the same call
made after one cache refresh returns normally, isolating the stale
initial cache as the trigger. -/
theorem C5_fresh_checker_raises_spuriously :
    (check_cancellation
        { job_row := some ("running", false), project_row := some "active" }
        { cached_job_status := none, cached_project_status := none, check_count := 0 }).2
      = some CancellationCause.projectDeleted
    ∧ (check_cancellation
        { job_row := some ("running", false), project_row := some "active" }
        (refresh_cache
          { job_row := some ("running", false), project_row := some "active" }
          { cached_job_status := none, cached_project_status := none, check_count := 0 })).2
      = none := by
  refine ⟨rfl, rfl⟩

/-- C3: governance evaluation is exactly the spec's fixed-order rule
chain — require_context, tenant_isolation, intent_filtering,
confidence_threshold, policy-content tagging, attribution tagging — with
the first failing rule determining the REFUSE reason and every passed
rule's name appended to `rules_applied`; and on the concrete scenario
(allow-list {faq, support}, candidates pricing@0.9 and faq@0.5,
threshold 0.7) the decision is REFUSE with reason
INSUFFICIENT_CONFIDENCE. -/
theorem C3_rule_chain_order_and_scenario :
    (∀ (cfg : GovConfig) (chunks : List GovChunk) (tenant : String),
      evaluate_query cfg chunks tenant = chainEval [] chunks (govChain cfg tenant))
    ∧ evaluate_query { assistant_id := "a1", allowed_intents := ["faq", "support"] }
        [ { intent := some "pricing", score := some (9/10) }
        , { intent := some "faq", score := some (5/10) } ] "tenant1"
      = { decision := ChatDecision.REFUSE
          reason := some RefusalReason.INSUFFICIENT_CONFIDENCE
          allowed_context := []
          rules_applied := ["require_context", "tenant_isolation",
                            "intent_filtering", "confidence_threshold"] } := by
  constructor
  · intro cfg chunks tenant
    by_cases h1 : chunks = []
    · simp [evaluate_query, chainEval, govChain, h1]
    · by_cases h3 : filter_by_intent cfg chunks = []
      · simp [evaluate_query, chainEval, govChain, check_tenant_isolation, h1, h3]
      · by_cases h4 : filter_by_confidence (filter_by_intent cfg chunks) = []
        · simp [evaluate_query, chainEval, govChain, check_tenant_isolation, h1, h3, h4]
        · by_cases h5 : (filter_by_confidence (filter_by_intent cfg chunks)).any
              (fun c => c.is_policy_content.getD false) = true
          · by_cases h6 : (filter_by_confidence (filter_by_intent cfg chunks)).any
                (fun c => c.requires_attribution.getD true) = true
            · simp [evaluate_query, chainEval, govChain, check_tenant_isolation,
                    h1, h3, h4, h5, h6]
            · simp [evaluate_query, chainEval, govChain, check_tenant_isolation,
                    h1, h3, h4, h5, h6]
          · by_cases h6 : (filter_by_confidence (filter_by_intent cfg chunks)).any
                (fun c => c.requires_attribution.getD true) = true
            · simp [evaluate_query, chainEval, govChain, check_tenant_isolation,
                    h1, h3, h4, h5, h6]
            · simp [evaluate_query, chainEval, govChain, check_tenant_isolation,
                    h1, h3, h4, h5, h6]
  · have hfaq : ¬((7 : ℚ)/10 ≤ 5/10) := by norm_num
    have hpricing : (7 : ℚ)/10 ≤ 9/10 := by norm_num
    simp [evaluate_query, filter_by_intent, filter_by_confidence,
          check_tenant_isolation, List.filter, hfaq, hpricing]

/-- C6 counterexample: with an empty allow-list, a candidate whose
intent ("pricing") is not a member of the allow-list is NOT removed by
the intent filter, and governance returns ANSWER rather than
REFUSE(OutOfScope), refuting the claim's "including when the allow-list
itself is empty" reading. -/
theorem C6_empty_allowlist_counterexample :
    ¬ (("pricing" : String) ∈ ([] : List String))
    ∧ filter_by_intent { assistant_id := "a1", allowed_intents := [] }
        [{ intent := some "pricing", score := some (9/10) }]
      = [{ intent := some "pricing", score := some (9/10) }]
    ∧ (evaluate_query { assistant_id := "a1", allowed_intents := [] }
        [{ intent := some "pricing", score := some (9/10) }] "tenant1").decision
      = ChatDecision.ANSWER
    ∧ (evaluate_query { assistant_id := "a1", allowed_intents := [] }
        [{ intent := some "pricing", score := some (9/10) }] "tenant1").reason
      ≠ some RefusalReason.OUT_OF_SCOPE := by
  have h9 : (7 : ℚ)/10 ≤ 9/10 := by norm_num
  refine ⟨by decide, rfl, ?_, ?_⟩ <;>
    simp [evaluate_query, filter_by_intent, filter_by_confidence,
          check_tenant_isolation, List.filter, h9]

/-- C6 amended: a candidate survives the intent filter iff it is in the
input and either the allow-list is empty (no restriction) or its
classified intent is in the allow-list; and, whenever the context rule
has passed (non-empty candidates), the decision is REFUSE(OutOfScope)
exactly when the intent filter empties the candidate set — which can
only happen with a non-empty allow-list. -/
theorem C6_intent_filter_amended :
    ∀ (cfg : GovConfig) (chunks : List GovChunk) (tenant_id : String),
      (∀ c : GovChunk, c ∈ filter_by_intent cfg chunks ↔
          c ∈ chunks ∧
            (cfg.allowed_intents = [] ∨ (c.intent.getD "unknown") ∈ cfg.allowed_intents))
      ∧ (chunks ≠ [] →
          (((evaluate_query cfg chunks tenant_id).decision = ChatDecision.REFUSE
            ∧ (evaluate_query cfg chunks tenant_id).reason = some RefusalReason.OUT_OF_SCOPE)
           ↔ filter_by_intent cfg chunks = [])) := by
  intro cfg chunks tenant_id
  constructor
  · intro c
    by_cases he : cfg.allowed_intents = []
    · simp [filter_by_intent, he]
    · simp [filter_by_intent, he, List.mem_filter]
  · intro h1
    by_cases h3 : filter_by_intent cfg chunks = []
    · simp [evaluate_query, check_tenant_isolation, h1, h3]
    · by_cases h4 : filter_by_confidence (filter_by_intent cfg chunks) = []
      · simp [evaluate_query, check_tenant_isolation, h1, h3, h4]
      · simp [evaluate_query, check_tenant_isolation, h1, h3, h4]

/-- C6 witness: the amended theorem applied to one pricing candidate
against the allow-list {faq}: the filter empties the set and the
decision is REFUSE(OutOfScope). -/
theorem C6_intent_filter_amended_witness :
    ([{ intent := some "pricing", score := some (9/10) }] : List GovChunk) ≠ []
    ∧ (((evaluate_query { assistant_id := "a1", allowed_intents := ["faq"] }
          [{ intent := some "pricing", score := some (9/10) }] "tenant1").decision
            = ChatDecision.REFUSE
        ∧ (evaluate_query { assistant_id := "a1", allowed_intents := ["faq"] }
          [{ intent := some "pricing", score := some (9/10) }] "tenant1").reason
            = some RefusalReason.OUT_OF_SCOPE)
       ↔ filter_by_intent { assistant_id := "a1", allowed_intents := ["faq"] }
           [{ intent := some "pricing", score := some (9/10) }] = []) :=
  ⟨by simp,
   (C6_intent_filter_amended { assistant_id := "a1", allowed_intents := ["faq"] }
      [{ intent := some "pricing", score := some (9/10) }] "tenant1").2 (by simp)⟩

/-- `getD` pushes through `map` when the fallback is a fixed point of the
mapped function. -/
theorem getD_map_of_fixed {α : Type} (f : α → α) (l : List α) (i : ℕ) (d : α)
    (hd : f d = d) : (l.map f).getD i d = f (l.getD i d) := by
  induction l generalizing i with
  | nil => simpa using hd.symm
  | cons a t ih =>
      cases i with
      | zero => rfl
      | succ n => simpa using ih n

/-- C7 counterexample: a job with status "queued" — a non-terminal
status — whose `started_at` (0) is 1 hour older than the 24-hour cutoff
at `now = 25·3600` is left completely unchanged by the reaper (it is not
marked failed), because the reaper's selection list names six explicit
statuses and omits "queued". -/
theorem C7_queued_stale_job_not_reaped :
    ¬ (("queued" : String) ∈ ["completed", "failed", "cancelled"])
    ∧ ((0 : ℤ) < 25 * 3600 - 24 * 3600)
    ∧ (cleanup_stale_jobs (25 * 3600) 24
        [{ id := "j1", assistant_id := "a1", status := "queued", started_at := 0 }]).1
      = [{ id := "j1", assistant_id := "a1", status := "queued", started_at := 0 }]
    ∧ (cleanup_stale_jobs (25 * 3600) 24
        [{ id := "j1", assistant_id := "a1", status := "queued", started_at := 0 }]).2
      = 0 := by
  refine ⟨by decide, by decide, ?_, ?_⟩ <;>
    simp [cleanup_stale_jobs, isStaleJob, staleStatusList]

/-- C7 amended: the reaper marks as failed exactly the jobs whose status
is one of running, scraping, processing, embedding, indexing, storing
and whose `started_at` is older than `now` minus the maximum age; each
such job gains a `stale_job_cleanup` error entry and a completion
timestamp, every other job (including stale queued jobs) is returned
unchanged, and the reported count is the number of selected jobs. -/
theorem C7_reaper_marks_exactly_selected_jobs :
    ∀ (now max_age_hours : ℤ) (jobs : List ReaperJobRow) (i : ℕ),
      ((cleanup_stale_jobs now max_age_hours jobs).1.length = jobs.length)
      ∧ ((cleanup_stale_jobs now max_age_hours jobs).2
          = (jobs.filter (isStaleJob (now - max_age_hours * 3600))).length)
      ∧ (isStaleJob (now - max_age_hours * 3600)
            (jobs.getD i { id := "", assistant_id := "", status := "queued", started_at := 0 })
            = true →
          (cleanup_stale_jobs now max_age_hours jobs).1.getD i
              { id := "", assistant_id := "", status := "queued", started_at := 0 }
            = markStale now
                (jobs.getD i { id := "", assistant_id := "", status := "queued", started_at := 0 }))
      ∧ (isStaleJob (now - max_age_hours * 3600)
            (jobs.getD i { id := "", assistant_id := "", status := "queued", started_at := 0 })
            = false →
          (cleanup_stale_jobs now max_age_hours jobs).1.getD i
              { id := "", assistant_id := "", status := "queued", started_at := 0 }
            = jobs.getD i { id := "", assistant_id := "", status := "queued", started_at := 0 })
      ∧ (∀ j : ReaperJobRow,
          (markStale now j).status = "failed"
          ∧ (markStale now j).error_details
            = j.error_details ++
              [{ error := "Job timed out - exceeded maximum runtime"
                 timestamp := now
                 cleanup_reason := some "stale_job_cleanup" }]
          ∧ (markStale now j).completed_at = some now) := by
  intro now max_age_hours jobs i
  have hfix :
      (fun j => if isStaleJob (now - max_age_hours * 3600) j then markStale now j else j)
        { id := "", assistant_id := "", status := "queued", started_at := 0 }
      = { id := "", assistant_id := "", status := "queued", started_at := 0 } := by
    simp [isStaleJob, staleStatusList]
  have hmap := getD_map_of_fixed
    (fun j => if isStaleJob (now - max_age_hours * 3600) j then markStale now j else j)
    jobs i { id := "", assistant_id := "", status := "queued", started_at := 0 } hfix
  refine ⟨by simp [cleanup_stale_jobs], rfl, ?_, ?_, ?_⟩
  · intro hstale
    show (jobs.map _).getD i _ = _
    rw [hmap]
    simp only [hstale, if_true]
  · intro hnot
    show (jobs.map _).getD i _ = _
    rw [hmap]
    simp only [hnot, Bool.false_eq_true, if_false]
  · intro j
    exact ⟨rfl, rfl, rfl⟩

/-- C7 witness: the amended theorem applied at `now = 25·3600` to a
two-job table — a running job started at time 0 (selected and marked
failed) and a queued job started at time 0 (not selected, unchanged). -/
theorem C7_reaper_marks_exactly_selected_jobs_witness :
    (isStaleJob (25 * 3600 - 24 * 3600)
        (([{ id := "j1", assistant_id := "a1", status := "running", started_at := 0 },
           { id := "j2", assistant_id := "a1", status := "queued", started_at := 0 }]
          : List ReaperJobRow).getD 0
          { id := "", assistant_id := "", status := "queued", started_at := 0 }) = true
      → (cleanup_stale_jobs (25 * 3600) 24
          [{ id := "j1", assistant_id := "a1", status := "running", started_at := 0 },
           { id := "j2", assistant_id := "a1", status := "queued", started_at := 0 }]).1.getD 0
            { id := "", assistant_id := "", status := "queued", started_at := 0 }
        = markStale (25 * 3600)
            (([{ id := "j1", assistant_id := "a1", status := "running", started_at := 0 },
               { id := "j2", assistant_id := "a1", status := "queued", started_at := 0 }]
              : List ReaperJobRow).getD 0
              { id := "", assistant_id := "", status := "queued", started_at := 0 }))
    ∧ (isStaleJob (25 * 3600 - 24 * 3600)
        (([{ id := "j1", assistant_id := "a1", status := "running", started_at := 0 },
           { id := "j2", assistant_id := "a1", status := "queued", started_at := 0 }]
          : List ReaperJobRow).getD 1
          { id := "", assistant_id := "", status := "queued", started_at := 0 }) = false
      → (cleanup_stale_jobs (25 * 3600) 24
          [{ id := "j1", assistant_id := "a1", status := "running", started_at := 0 },
           { id := "j2", assistant_id := "a1", status := "queued", started_at := 0 }]).1.getD 1
            { id := "", assistant_id := "", status := "queued", started_at := 0 }
        = ([{ id := "j1", assistant_id := "a1", status := "running", started_at := 0 },
            { id := "j2", assistant_id := "a1", status := "queued", started_at := 0 }]
           : List ReaperJobRow).getD 1
            { id := "", assistant_id := "", status := "queued", started_at := 0 }) :=
  ⟨(C7_reaper_marks_exactly_selected_jobs (25 * 3600) 24
      [{ id := "j1", assistant_id := "a1", status := "running", started_at := 0 },
       { id := "j2", assistant_id := "a1", status := "queued", started_at := 0 }] 0).2.2.1,
   (C7_reaper_marks_exactly_selected_jobs (25 * 3600) 24
      [{ id := "j1", assistant_id := "a1", status := "running", started_at := 0 },
       { id := "j2", assistant_id := "a1", status := "queued", started_at := 0 }] 1).2.2.2.1⟩

/-- C8: when a job's current stage is already one of processing,
embedding, ingestion, storing, or its status is already completed, the
ingestion run returns with the whole state — job row, URL rows, stored
chunks and assistant row — unchanged. -/
theorem C8_ingestion_guard_frame :
    ∀ (chunker : String → List String) (store : List String → List String)
      (now : ℤ) (s : IngestionState),
      (s.job.current_stage ∈ ingestionGuardStages ∨ s.job.status = "completed") →
      process_ingestion chunker store now s = s := by
  intro chunker store now s h
  by_cases hc : s.job.status = "completed"
  · simp [process_ingestion, hc]
  · rcases h with h | h
    · simp [process_ingestion, hc, h]
    · exact absurd h hc

/-- C8 witness: a job sitting in stage "embedding" with status "running"
passes through an ingestion invocation untouched. -/
theorem C8_ingestion_guard_frame_witness :
    (("embedding" : String) ∈ ingestionGuardStages ∨ ("running" : String) = "completed")
    ∧ process_ingestion (fun _ => []) (fun _ => []) 0
        { job := { id := "j1", status := "running", current_stage := "embedding" }
          urls := [{ url := "https://example.com/", status := "scraped",
                     raw_content := "welcome" }]
          assistant := { id := "a1", status := "ingesting" } }
      = { job := { id := "j1", status := "running", current_stage := "embedding" }
          urls := [{ url := "https://example.com/", status := "scraped",
                     raw_content := "welcome" }]
          assistant := { id := "a1", status := "ingesting" } } :=
  ⟨Or.inl (by decide),
   C8_ingestion_guard_frame (fun _ => []) (fun _ => []) 0
     { job := { id := "j1", status := "running", current_stage := "embedding" }
       urls := [{ url := "https://example.com/", status := "scraped",
                  raw_content := "welcome" }]
       assistant := { id := "a1", status := "ingesting" } }
     (Or.inl (by decide))⟩

/-- Taking `2 · k` elements of a `flatMap` whose pieces all have length 2
is the `flatMap` of the first `k` elements. -/
theorem take_flatMap_pairs {α β : Type} (f : α → List β)
    (hf : ∀ a, (f a).length = 2) :
    ∀ (l : List α) (k : ℕ), (l.flatMap f).take (2 * k) = (l.take k).flatMap f := by
  intro l
  induction l with
  | nil => intro k; simp
  | cons a t ih =>
      intro k
      cases k with
      | zero => simp
      | succ n =>
          have h2 : 2 * (n + 1) = (f a).length + 2 * n := by
            rw [hf a]; ring
          simp only [List.flatMap_cons, List.take_succ_cons, h2,
            List.take_append]
          rw [ih n]

/-- C9: the chunk identifier generator is a pure function equal, on all
inputs, to the string "chunk_" followed by the first 16 hex digits
(the first 8 digest bytes in hex) of the SHA-256 digest of
`url:index:content_hash`; in particular two invocations on identical
inputs yield the identical identifier. -/
theorem C9_chunk_id_pure_and_deterministic :
    ∀ (url : String) (chunk_index : ℕ) (content_hash : String),
      generate_deterministic_chunk_id url chunk_index content_hash
        = chunkIdSpec url chunk_index content_hash
      ∧ generate_deterministic_chunk_id url chunk_index content_hash
        = generate_deterministic_chunk_id url chunk_index content_hash := by
  intro url chunk_index content_hash
  refine ⟨?_, rfl⟩
  show "chunk_" ++ String.mk
      (((sha256 (utf8Encode (url ++ ":" ++ toString chunk_index ++ ":" ++ content_hash))).flatMap
          byteToHex).take 16) = _
  rw [show (16 : ℕ) = 2 * 8 from rfl,
      take_flatMap_pairs byteToHex (fun a => rfl)]
  rfl

/-- The chunking loop completes (returns `some`) whenever the fuel
exceeds the remaining token distance, given a positive window advance. -/
theorem chunk_loop_completes (decode : List ℕ → String)
    (max_chunk_size chunk_overlap : ℕ) (h : chunk_overlap < max_chunk_size)
    (tokens : List ℕ) :
    ∀ (fuel start : ℕ) (acc : List String), tokens.length - start < fuel →
      ∃ chunks, chunk_loop decode max_chunk_size chunk_overlap tokens fuel start acc
        = some chunks := by
  intro fuel
  induction fuel with
  | zero => intro start acc hf; omega
  | succ n ih =>
      intro start acc hf
      by_cases hs : start < tokens.length
      · simp only [chunk_loop, if_pos hs]
        exact ih (start + max_chunk_size - chunk_overlap) _ (by omega)
      · exact ⟨acc.reverse, by simp [chunk_loop, hs]⟩

/-- C10: with the chunk overlap strictly below the maximum chunk size —
as in the shipped settings, 200 versus 10000 — token-based chunking
always terminates with a finite chunk list (the loop's
`tokens.length + 1` fuel bound is never exhausted), the per-iteration
advance `max_chunk_size - chunk_overlap` is positive, and each loop
iteration on an in-range window advances the start by exactly that
amount. -/
theorem C10_chunk_text_terminates :
    CHUNK_OVERLAP < MAX_CONTENT_LENGTH
    ∧ ∀ (max_chunk_size chunk_overlap : ℕ),
        chunk_overlap < max_chunk_size →
        (∀ (encode : String → List ℕ) (decode : List ℕ → String) (text : String),
          ∃ chunks,
            chunk_text encode decode max_chunk_size chunk_overlap text = some chunks)
        ∧ 0 < max_chunk_size - chunk_overlap
        ∧ (∀ (decode : List ℕ → String) (tokens : List ℕ) (fuel start : ℕ)
            (acc : List String),
            start < tokens.length →
            chunk_loop decode max_chunk_size chunk_overlap tokens (fuel + 1) start acc
              = chunk_loop decode max_chunk_size chunk_overlap tokens fuel
                  (start + (max_chunk_size - chunk_overlap))
                  (if (decode ((tokens.drop start).take max_chunk_size)).trim ≠ "" then
                     (decode ((tokens.drop start).take max_chunk_size)).trim :: acc
                   else acc)) := by
  refine ⟨by decide, ?_⟩
  intro max_chunk_size chunk_overlap h
  refine ⟨?_, by omega, ?_⟩
  · intro encode decode text
    unfold chunk_text
    by_cases hl : (encode text).length ≤ max_chunk_size
    · exact ⟨[text], by simp [hl]⟩
    · simp only [if_neg hl]
      exact chunk_loop_completes decode max_chunk_size chunk_overlap h
        (encode text) ((encode text).length + 1) 0 [] (by omega)
  · intro decode tokens fuel start acc hs
    have harith : start + max_chunk_size - chunk_overlap
        = start + (max_chunk_size - chunk_overlap) := by omega
    simp only [chunk_loop, if_pos hs, harith]

/-- C10 witness: the theorem at the shipped settings (overlap 200, size
10000), with a character-code tokenizer, a concrete text, and one
concrete loop step on the token list [5, 6, 7]. -/
theorem C10_chunk_text_terminates_witness :
    CHUNK_OVERLAP < MAX_CONTENT_LENGTH
    ∧ (200 : ℕ) < 10000
    ∧ (∃ chunks,
        chunk_text (fun s => s.data.map Char.toNat)
          (fun l => String.mk (l.map Char.ofNat)) 10000 200 "hello world"
          = some chunks)
    ∧ (0 : ℕ) < 10000 - 200
    ∧ (0 : ℕ) < ([5, 6, 7] : List ℕ).length
    ∧ chunk_loop (fun l => String.mk (l.map Char.ofNat)) 10000 200 [5, 6, 7] 1 0 []
        = chunk_loop (fun l => String.mk (l.map Char.ofNat)) 10000 200 [5, 6, 7] 0
            (0 + (10000 - 200))
            (if ((fun l => String.mk (l.map Char.ofNat))
                  ((([5, 6, 7] : List ℕ).drop 0).take 10000)).trim ≠ "" then
               ((fun l => String.mk (l.map Char.ofNat))
                  ((([5, 6, 7] : List ℕ).drop 0).take 10000)).trim :: ([] : List String)
             else []) :=
  ⟨C10_chunk_text_terminates.1,
   by decide,
   (C10_chunk_text_terminates.2 10000 200 (by decide)).1
     (fun s => s.data.map Char.toNat) (fun l => String.mk (l.map Char.ofNat))
     "hello world",
   (C10_chunk_text_terminates.2 10000 200 (by decide)).2.1,
   by decide,
   (C10_chunk_text_terminates.2 10000 200 (by decide)).2.2
     (fun l => String.mk (l.map Char.ofNat)) [5, 6, 7] 0 0 [] (by decide)⟩
